import Mathlib

/-!
# Spritesheet generator front end: layout prediction and form state

A shallow embedding of `src/frontend/src/App.jsx`: the React state of the
`App` component, its event handlers as pure state transformers, and the
layout predictor `calculateDimensions`, followed by the properties the
specification states about them.

## Numbers

Every number the component computes with is an integer-valued double, a zero,
an infinity or NaN: `files.length`, `img.width`, `img.height` are
non-negative integers below 2^32, `parseInt` returns an integer-valued double
or NaN, and the only division whose quotient is not an integer is consumed at
once by `Math.ceil` or `Math.floor`.  `JSNum` has these values.  Sums and
products are those of IEEE 754 binary64: the exact integer result is rounded
to the nearest double, ties to the even significand, and becomes an infinity
from 2^1024 on; integers up to 2^53 in magnitude are exact.  The two zeros
are kept apart, since `n / -0` is `-Infinity`.

## Events

Handlers are state transformers.  The two asynchronous continuations, the
`onload` of the measuring image and the completion of the generate request,
are events of their own, so that a run of the component is a list of events
applied to the initial state.
-/

namespace SpriteSheets

/-- A JavaScript number as it occurs in `App.jsx`: `fin z` is the double with
the integer value `z` (`fin 0` is `+0`), `negZero` is `-0`. -/
inductive JSNum where
  | fin (z : Int)
  | negZero
  | posInf
  | negInf
  | nan
  deriving DecidableEq, Repr

namespace JSNum

/-- The bound 2^1024 from which a magnitude rounds to an infinity. -/
def overflowBound : Nat := 2 ^ 256 * 2 ^ 256 * 2 ^ 256 * 2 ^ 256

/-- The spacing of the doubles around `n`: the least power of two `u`, from
`u` upwards, with `n < 2^53 * u`, found by doubling at most `fuel` times. -/
def ulpFrom : Nat → Nat → Nat → Nat
  | 0, _, u => u
  | fuel + 1, n, u => if n < 2 ^ 53 * u then u else ulpFrom fuel n (2 * u)

/-- Round a natural number to the nearest double, ties to the even
significand; `none` is the overflow to infinity.  Numbers up to 2^53 are
doubles.  Above, the doubles are the multiples of the spacing `u` (971
doublings reach every `n` below 2^1024). -/
def roundNat (n : Nat) : Option Nat :=
  if n ≤ 2 ^ 53 then some n
  else if overflowBound ≤ n then none
  else
    let u := ulpFrom 971 n 1
    let q := n / u
    let r := n % u
    let q1 :=
      if 2 * r < u then q
      else if u < 2 * r then q + 1
      else if q % 2 = 0 then q
      else q + 1
    if overflowBound ≤ q1 * u then none else some (q1 * u)

/-- The double nearest to the exact integer `x` (rounding is symmetric in the
sign); an exact zero is `+0`. -/
def ofExact (x : Int) : JSNum :=
  match roundNat x.natAbs with
  | some m => if x < 0 then fin (-(m : Int)) else fin (m : Int)
  | none => if x < 0 then negInf else posInf

/-- The sum `a + b` of JavaScript.  A zero sum of non-zero numbers is `+0`;
`-0` is neutral. -/
def add : JSNum → JSNum → JSNum
  | nan, _ => nan
  | _, nan => nan
  | fin a, fin b => ofExact (a + b)
  | fin a, negZero => fin a
  | negZero, fin b => fin b
  | negZero, negZero => negZero
  | fin _, posInf => posInf
  | fin _, negInf => negInf
  | negZero, posInf => posInf
  | negZero, negInf => negInf
  | posInf, fin _ => posInf
  | negInf, fin _ => negInf
  | posInf, negZero => posInf
  | negInf, negZero => negInf
  | posInf, posInf => posInf
  | negInf, negInf => negInf
  | posInf, negInf => nan
  | negInf, posInf => nan

/-- The unary minus `-a` of JavaScript. -/
def neg : JSNum → JSNum
  | fin a => if a = 0 then negZero else fin (-a)
  | negZero => fin 0
  | posInf => negInf
  | negInf => posInf
  | nan => nan

/-- The difference `a - b` of JavaScript. -/
def sub (a b : JSNum) : JSNum := add a (neg b)

/-- An infinity times the integer `a`: NaN at zero, else the signed infinity. -/
def infTimes (positive : Bool) (a : Int) : JSNum :=
  if a = 0 then nan
  else if (decide (0 < a)) = positive then posInf
  else negInf

/-- A zero with the given sign. -/
def zero (negative : Bool) : JSNum :=
  if negative then negZero else fin 0

/-- The product `a * b` of JavaScript.  A zero product carries the product of
the signs. -/
def mul : JSNum → JSNum → JSNum
  | nan, _ => nan
  | _, nan => nan
  | fin a, fin b =>
    if a * b = 0 then zero (decide (a < 0) != decide (b < 0)) else ofExact (a * b)
  | fin a, negZero => zero (!decide (a < 0))
  | negZero, fin b => zero (!decide (b < 0))
  | negZero, negZero => fin 0
  | fin a, posInf => infTimes true a
  | fin a, negInf => infTimes false a
  | posInf, fin b => infTimes true b
  | negInf, fin b => infTimes false b
  | negZero, posInf => nan
  | negZero, negInf => nan
  | posInf, negZero => nan
  | negInf, negZero => nan
  | posInf, posInf => posInf
  | negInf, negInf => posInf
  | posInf, negInf => negInf
  | negInf, posInf => negInf

instance : Add JSNum := ⟨add⟩
instance : Sub JSNum := ⟨sub⟩
instance : Mul JSNum := ⟨mul⟩
instance : OfNat JSNum n := ⟨fin (n : Int)⟩

/-- The comparison `a > 0` of JavaScript (false at NaN and at both zeros). -/
def gtZero : JSNum → Bool
  | fin a => decide (0 < a)
  | negZero => false
  | posInf => true
  | negInf => false
  | nan => false

/-- JavaScript truthiness of a number: everything but the zeros and NaN. -/
def truthy : JSNum → Bool
  | fin a => decide (a ≠ 0)
  | negZero => false
  | posInf => true
  | negInf => true
  | nan => false

/-- The expression `a || b` on numbers. -/
def orElse (a b : JSNum) : JSNum := if truthy a then a else b

/-- The expression `Math.ceil(n / c)` for a non-negative integer `n` (an array
length).  The quotient of two integers is rational, so its ceiling is computed
in integers: `-((-n) / c)` with the flooring division for `c > 0`, and `n / c`
with the Euclidean division (which rounds up for a negative divisor) for
`c < 0`, where a ceiling of zero is `-0`.  Division by `+0` gives `Infinity`
and by `-0` gives `-Infinity` for `n > 0`, and NaN for `n = 0`; division by
`Infinity` gives `+0` and by `-Infinity` gives `-0`. -/
def ceilDiv (n : Nat) : JSNum → JSNum
  | fin c =>
    if c = 0 then (if n = 0 then nan else posInf)
    else if 0 < c then fin (-((-(n : Int)) / c))
    else if (n : Int) / c = 0 then negZero
    else fin ((n : Int) / c)
  | negZero => if n = 0 then nan else negInf
  | posInf => fin 0
  | negInf => negZero
  | nan => nan

/-- The expression `Math.floor(n / w)` for non-negative integers `n` and `w`
(here `640 / frameDimensions.width`). -/
def floorDiv (n w : Nat) : JSNum :=
  if w = 0 then (if n = 0 then nan else posInf)
  else fin ((n / w : Nat) : Int)

end JSNum

/-- A selected file: its name and the object URL minted for its preview. -/
structure File where
  name : String
  url : String
  deriving DecidableEq, Repr

/-- An entry of `previewFiles`. -/
structure Preview where
  name : String
  url : String
  deriving DecidableEq, Repr

/-- The `bgColor` state object. -/
structure BgColor where
  r : JSNum
  g : JSNum
  b : JSNum
  a : JSNum
  deriving DecidableEq, Repr

/-- The `frameDimensions` state object: `img.width` and `img.height` of the
first selected frame. -/
structure FrameDimensions where
  width : Nat
  height : Nat
  deriving DecidableEq, Repr

/-- The `info` object of a generate response, as the component reads it. -/
structure ResultInfo where
  frames : Nat
  frameWidth : Nat
  frameHeight : Nat
  sheetWidth : Nat
  sheetHeight : Nat
  gridCols : Nat
  gridRows : Nat
  padding : Nat
  deriving DecidableEq, Repr

/-- The body of a generate response (`response.data`). -/
structure GenerateResult where
  filename : String
  message : String
  info : ResultInfo
  deriving DecidableEq, Repr

/-- The React state of `App`: one field per `useState` hook, in source order. -/
structure State where
  files : List File
  cols : JSNum
  padding : JSNum
  bgColor : BgColor
  loading : Bool
  result : Option GenerateResult
  error : Option String
  previewFiles : List Preview
  frameDimensions : Option FrameDimensions
  showUnityGuide : Bool
  deriving DecidableEq, Repr

/-- The initial values passed to the `useState` hooks. -/
def initialState : State where
  files := []
  cols := 8
  padding := 2
  bgColor := { r := 0, g := 0, b := 0, a := 0 }
  loading := false
  result := none
  error := none
  previewFiles := []
  frameDimensions := none
  showUnityGuide := false

/-- The object `{ width, height, rows, cols }` returned by
`calculateDimensions`. -/
structure Dimensions where
  width : JSNum
  height : JSNum
  rows : JSNum
  cols : JSNum
  deriving DecidableEq, Repr

/-- The function `calculateDimensions` (App.jsx, lines 45-53); `none` is the
`null` it returns when there is nothing to lay out. -/
def calculateDimensions (s : State) : Option Dimensions :=
  match s.frameDimensions with
  | none => none
  | some fd =>
    if s.files.length = 0 then none
    else
      let rows := JSNum.ceilDiv s.files.length s.cols
      let width := s.cols * JSNum.fin fd.width + (s.cols - 1) * s.padding
      let height := rows * JSNum.fin fd.height + (rows - 1) * s.padding
      some { width := width, height := height, rows := rows, cols := s.cols }

/-- The render guard `{expectedDimensions && (...)}` of the expected-size
panel (App.jsx, line 265): an object is truthy, `null` is not. -/
def rendersDimensionsPreview (s : State) : Bool :=
  (calculateDimensions s).isSome

/-- The `img.onload` callback installed by `handleFileChange`: the browser
reports the size of the first selected frame. -/
def imageLoaded (s : State) (width height : Nat) : State :=
  { s with frameDimensions := some { width := width, height := height } }

/-- The handler `handleFileChange` (App.jsx, lines 19-42), up to the
asynchronous image load, which arrives later as `imageLoaded`. -/
def handleFileChange (s : State) (selectedFiles : List File) : State :=
  let s1 : State :=
    { s with
      files := selectedFiles
      result := none
      error := none
      previewFiles := selectedFiles.map (fun file => { name := file.name, url := file.url }) }
  if selectedFiles.length > 0 then s1
  else { s1 with frameDimensions := none }

/-- The multipart form posted to the generate endpoint. -/
structure GenerateRequest where
  files : List File
  cols : JSNum
  padding : JSNum
  bg_color_r : JSNum
  bg_color_g : JSNum
  bg_color_b : JSNum
  bg_color_a : JSNum
  deriving DecidableEq, Repr

/-- The message `handleSubmit` sets when no file is selected. -/
def noFilesMessage : String := "Please select at least one PNG file"

/-- The handler `handleSubmit` (App.jsx, lines 57-96) up to its `await`: the
state it leaves and the request it posts, if any.  The outcome of the request
arrives later as `submitResolved` or `submitRejected`. -/
def handleSubmit (s : State) : State × Option GenerateRequest :=
  if s.files.length = 0 then
    ({ s with error := some noFilesMessage }, none)
  else
    ({ s with loading := true, error := none, result := none },
      some
        { files := s.files
          cols := s.cols
          padding := s.padding
          bg_color_r := s.bgColor.r
          bg_color_g := s.bgColor.g
          bg_color_b := s.bgColor.b
          bg_color_a := s.bgColor.a })

/-- The continuation of `handleSubmit` after a successful response. -/
def submitResolved (s : State) (data : GenerateResult) : State :=
  { s with result := some data, loading := false }

/-- The continuation of `handleSubmit` after a failed request:
`err.response?.data?.detail || 'Error generating spritesheet'`. -/
def submitRejected (s : State) (detail : Option String) : State :=
  let message :=
    match detail with
    | some d => if d = "" then "Error generating spritesheet" else d
    | none => "Error generating spritesheet"
  { s with error := some message, loading := false }

/-- The handler `resetForm` (App.jsx, lines 104-111). -/
def resetForm (s : State) : State :=
  { s with
    files := []
    result := none
    error := none
    previewFiles := []
    showUnityGuide := false }

/-- The `onChange` handler of the columns input; `parsed` is
`parseInt(e.target.value)`. -/
def colsChange (s : State) (parsed : JSNum) : State :=
  { s with cols := parsed }

/-- The `onChange` handler of the padding input; `parsed` is
`parseInt(e.target.value)`. -/
def paddingChange (s : State) (parsed : JSNum) : State :=
  { s with padding := parsed }

/-- The four channels of the background colour. -/
inductive Channel where
  | r
  | g
  | b
  | a
  deriving DecidableEq, Repr

/-- The `onChange` handlers of the colour inputs:
`setBgColor({ ...bgColor, r: parseInt(e.target.value) || 0 })` and likewise
for `g`, `b`, `a`. -/
def bgColorChange (s : State) (ch : Channel) (parsed : JSNum) : State :=
  let v := JSNum.orElse parsed 0
  match ch with
  | Channel.r => { s with bgColor := { s.bgColor with r := v } }
  | Channel.g => { s with bgColor := { s.bgColor with g := v } }
  | Channel.b => { s with bgColor := { s.bgColor with b := v } }
  | Channel.a => { s with bgColor := { s.bgColor with a := v } }

/-- The preset "Preserve Size (1 column)": `setCols(1); setPadding(0)`. -/
def presetPreserveSize (s : State) : State :=
  { s with cols := 1, padding := 0 }

/-- The preset "Compact Grid":
`setCols(Math.min(files.length, 10)); setPadding(0)`. -/
def presetCompactGrid (s : State) : State :=
  { s with cols := JSNum.fin ((min s.files.length 10 : Nat) : Int), padding := 0 }

/-- The preset "Single Row": `setCols(files.length); setPadding(0)`. -/
def presetSingleRow (s : State) : State :=
  { s with cols := JSNum.fin (s.files.length : Int), padding := 0 }

/-- The preset "Fit to 640px Width" (App.jsx, lines 250-254).  It reads
`frameDimensions.width`; the button exists only while `frameDimensions` is
set, and `none` stands for the handler not running. -/
def presetFit640 (s : State) : Option State :=
  match s.frameDimensions with
  | none => none
  | some fd =>
    let optimalCols := JSNum.floorDiv 640 fd.width
    some { s with cols := (if JSNum.gtZero optimalCols then optimalCols else 1), padding := 0 }

/-- The button toggling the Unity guide. -/
def toggleUnityGuide (s : State) : State :=
  { s with showUnityGuide := !s.showUnityGuide }

/-- What can happen to the component: user input and the two asynchronous
completions. -/
inductive Event where
  | fileChange (selectedFiles : List File)
  | imageLoaded (width height : Nat)
  | colsChange (parsed : JSNum)
  | paddingChange (parsed : JSNum)
  | bgColorChange (ch : Channel) (parsed : JSNum)
  | submit
  | submitResolved (data : GenerateResult)
  | submitRejected (detail : Option String)
  | reset
  | presetPreserveSize
  | presetCompactGrid
  | presetSingleRow
  | presetFit640
  | toggleUnityGuide
  deriving DecidableEq, Repr

/-- One event applied to a state.  `none` means the control is not rendered in
that state: the presets need `frameDimensions`, the guide button a result.
The `disabled` attributes, which only take transitions away while a request is
in flight, are not modelled. -/
def step (s : State) : Event → Option State
  | Event.fileChange selectedFiles => some (handleFileChange s selectedFiles)
  | Event.imageLoaded width height => some (imageLoaded s width height)
  | Event.colsChange parsed => some (colsChange s parsed)
  | Event.paddingChange parsed => some (paddingChange s parsed)
  | Event.bgColorChange ch parsed => some (bgColorChange s ch parsed)
  | Event.submit => some (handleSubmit s).1
  | Event.submitResolved data => some (submitResolved s data)
  | Event.submitRejected detail => some (submitRejected s detail)
  | Event.reset => some (resetForm s)
  | Event.presetPreserveSize =>
    if s.frameDimensions.isSome then some (presetPreserveSize s) else none
  | Event.presetCompactGrid =>
    if s.frameDimensions.isSome then some (presetCompactGrid s) else none
  | Event.presetSingleRow =>
    if s.frameDimensions.isSome then some (presetSingleRow s) else none
  | Event.presetFit640 => presetFit640 s
  | Event.toggleUnityGuide =>
    if s.result.isSome then some (toggleUnityGuide s) else none

/-- A sequence of events applied in order. -/
def run (s : State) : List Event → Option State
  | [] => some s
  | e :: es =>
    match step s e with
    | none => none
    | some s1 => run s1 es

/-- Whether a number is an integer in the closed range `lo..hi`. -/
def inRange (lo hi : Int) : JSNum → Bool
  | JSNum.fin z => decide (lo ≤ z) && decide (z ≤ hi)
  | _ => false

/-- The configuration bounds declared on the inputs (`min`/`max` attributes):
columns in 1..32, padding in 0..20, every colour channel in 0..255. -/
def configInBounds (s : State) : Bool :=
  inRange 1 32 s.cols && inRange 0 20 s.padding &&
    inRange 0 255 s.bgColor.r && inRange 0 255 s.bgColor.g &&
    inRange 0 255 s.bgColor.b && inRange 0 255 s.bgColor.a

/-- A file for examples. -/
def frame (i : Nat) : File := { name := "frame_" ++ toString i ++ ".png", url := "blob:" ++ toString i }

/-- A state for examples: `n` selected frames of size `w × h`, the given
columns and padding, everything else as initially. -/
def exampleState (n w h : Nat) (cols padding : Int) : State :=
  { initialState with
    files := (List.range n).map frame
    frameDimensions := some { width := w, height := h }
    cols := JSNum.fin cols
    padding := JSNum.fin padding }

/-- Whether an event stays within the ranges declared on the controls, in the
state where it happens: a columns value in 1..32, a padding value in 0..20, a
colour value in 0..255 or NaN (stored as 0), "Compact Grid" with at least one
file, "Single Row" with 1..32 files, "Fit to 640px Width" with a first-frame
width of at least 20.  Every other event qualifies. -/
def withinDeclaredRange (s : State) : Event → Bool
  | Event.colsChange parsed => inRange 1 32 parsed
  | Event.paddingChange parsed => inRange 0 20 parsed
  | Event.bgColorChange _ parsed => decide (parsed = JSNum.nan) || inRange 0 255 parsed
  | Event.presetCompactGrid => decide (1 ≤ s.files.length)
  | Event.presetSingleRow => decide (1 ≤ s.files.length) && decide (s.files.length ≤ 32)
  | Event.presetFit640 =>
    match s.frameDimensions with
    | some fd => decide (20 ≤ fd.width)
    | none => true
  | _ => true

/-- Whether every event of a sequence stays within the declared ranges, each
judged in the state it happens in. -/
def allWithinDeclaredRange (s : State) : List Event → Bool
  | [] => true
  | e :: es =>
    withinDeclaredRange s e &&
      (match step s e with
      | none => true
      | some s1 => allWithinDeclaredRange s1 es)

/-- A session for examples: three frames of 64 × 64 are selected and measured,
columns, padding and two colour channels are edited within range (one colour
field is cleared, which parses to NaN), two presets are used, and the form is
submitted, answered and reset. -/
def exampleSession : List Event :=
  [ Event.fileChange ((List.range 3).map frame),
    Event.imageLoaded 64 64,
    Event.colsChange (JSNum.fin 4),
    Event.paddingChange (JSNum.fin 1),
    Event.bgColorChange Channel.r (JSNum.fin 255),
    Event.bgColorChange Channel.g JSNum.nan,
    Event.presetSingleRow,
    Event.presetFit640,
    Event.submit,
    Event.submitRejected none,
    Event.reset ]

/-- The state `exampleSession` ends in. -/
def exampleSessionEnd : State :=
  { initialState with
    cols := JSNum.fin 10
    padding := JSNum.fin 0
    bgColor := { r := JSNum.fin 255, g := JSNum.fin 0, b := JSNum.fin 0, a := JSNum.fin 0 }
    frameDimensions := some { width := 64, height := 64 } }

/-- Modelled from the spec: the per-frame placement of the layout planner
(§4.1), which runs in the generation engine and is not part of the front-end
source.  Frame `i` goes to grid cell `(i % columns, i / columns)`, column
first. -/
def cellOf (i : Nat) (columns : Int) : Int × Int :=
  ((i : Int) % columns, (i : Int) / columns)

/-- Modelled from the spec: the top-left origin
`(col * (cellWidth + padding), row * (cellHeight + padding))` of the cell of
frame `i` (§4.1); the planner is not part of the front-end source. -/
def cellOrigin (i : Nat) (columns : Int) (cellWidth cellHeight : Nat) (padding : Int) :
    Int × Int :=
  ((cellOf i columns).1 * (cellWidth + padding), (cellOf i columns).2 * (cellHeight + padding))

/-- The comparison `a !== b` of JavaScript on numbers: NaN differs from
everything, itself included, and the two zeros do not differ. -/
def JSNum.strictNe (a b : JSNum) : Bool :=
  match a, b with
  | JSNum.nan, _ => true
  | _, JSNum.nan => true
  | JSNum.fin 0, JSNum.negZero => false
  | JSNum.negZero, JSNum.fin 0 => false
  | x, y => decide (x ≠ y)

/-- The render guard of the 640×640 tip (App.jsx, line 300), inside the
expected-size panel:
`frameDimensions.width < 256 && (expectedDimensions.width !== 640 ||
expectedDimensions.height !== 640)`. -/
def rendersTip (s : State) : Bool :=
  match calculateDimensions s, s.frameDimensions with
  | some d, some fd =>
    decide (fd.width < 256) && (JSNum.strictNe d.width 640 || JSNum.strictNe d.height 640)
  | _, _ => false

/-- The column count the tip suggests (App.jsx, line 303):
`Math.floor(640 / frameDimensions.width)`. -/
def tipColumns (fd : FrameDimensions) : JSNum :=
  JSNum.floorDiv 640 fd.width

/-- The frame count the tip suggests (App.jsx, line 303):
`Math.floor(640 / frameDimensions.width) * Math.floor(640 / frameDimensions.height)`. -/
def tipFrames (fd : FrameDimensions) : JSNum :=
  JSNum.floorDiv 640 fd.width * JSNum.floorDiv 640 fd.height

/-- Modelled from the spec: the grid geometry of §3 that the layout planner
returns.  The planner runs in the generation engine and is not part of the
front-end source. -/
structure Geometry where
  columns : Int
  rows : Int
  canvas_width : Int
  canvas_height : Int
  deriving DecidableEq, Repr

/-- Modelled from the spec: the results of the layout planner of §4.1, which
is not part of the front-end source: a geometry, the explicit "no geometry"
result for zero frames, or the configuration error for an out-of-range
value. -/
inductive PlanResult where
  | geometry (g : Geometry)
  | empty
  | configurationError
  deriving DecidableEq, Repr

/-- Modelled from the spec: the layout planner `plan` of §4.1, which is not
part of the front-end source.  Zero frames give the "no geometry" result; the
planner does not clamp but rejects a value outside the recognized bounds of
§6, columns in 1..32 and padding in 0..20, as a configuration error;
otherwise `rows = ceil(frameCount / columns)`,
`canvas_width = columns * cell.w + (columns - 1) * padding`,
`canvas_height = rows * cell.h + (rows - 1) * padding` (§3), in exact
integers. -/
def plan (frameCount cellWidth cellHeight : Nat) (columns padding : Int) : PlanResult :=
  if frameCount = 0 then PlanResult.empty
  else if columns < 1 ∨ 32 < columns ∨ padding < 0 ∨ 20 < padding then
    PlanResult.configurationError
  else
    PlanResult.geometry
      { columns := columns
        rows := ⌈(frameCount : ℚ) / (columns : ℚ)⌉
        canvas_width := columns * cellWidth + (columns - 1) * padding
        canvas_height := ⌈(frameCount : ℚ) / (columns : ℚ)⌉ * cellHeight
          + (⌈(frameCount : ℚ) / (columns : ℚ)⌉ - 1) * padding }

/-- Modelled from the spec: the triple `(rows, canvas_width, canvas_height)`
of a planner result (§8, geometry equivalence), if it has one. -/
def plannedTriple : PlanResult → Option (JSNum × JSNum × JSNum)
  | PlanResult.geometry g =>
    some (JSNum.fin g.rows, JSNum.fin g.canvas_width, JSNum.fin g.canvas_height)
  | PlanResult.empty => none
  | PlanResult.configurationError => none

/-- The triple `(rows, width, height)` of what `calculateDimensions` returns,
if it returns an object. -/
def predictedTriple (s : State) : Option (JSNum × JSNum × JSNum) :=
  (calculateDimensions s).map (fun d => (d.rows, d.width, d.height))

/-! ## Arithmetic of `JSNum` on integers -/

/-- Integers up to 2^53 in magnitude are doubles: rounding leaves them. -/
theorem JSNum.ofExact_eq_fin (x : Int) (h : x.natAbs ≤ 2 ^ 53) :
    JSNum.ofExact x = JSNum.fin x := by
  unfold JSNum.ofExact JSNum.roundNat
  rw [if_pos h]
  by_cases hx : x < 0
  · simp only [hx, if_true, JSNum.fin.injEq]
    omega
  · simp only [hx, if_false, JSNum.fin.injEq]
    omega

/-- A sum of integers that is at most 2^53 in magnitude is exact. -/
theorem JSNum.fin_add_fin (a b : Int) (h : (a + b).natAbs ≤ 2 ^ 53) :
    JSNum.fin a + JSNum.fin b = JSNum.fin (a + b) := by
  show JSNum.add (JSNum.fin a) (JSNum.fin b) = _
  simp only [JSNum.add, JSNum.ofExact_eq_fin _ h]

/-- A difference of integers that is at most 2^53 in magnitude is exact. -/
theorem JSNum.fin_sub_fin (a b : Int) (h : (a - b).natAbs ≤ 2 ^ 53) :
    JSNum.fin a - JSNum.fin b = JSNum.fin (a - b) := by
  show JSNum.add (JSNum.fin a) (JSNum.neg (JSNum.fin b)) = _
  by_cases hb : b = 0
  · subst hb
    simp [JSNum.neg, JSNum.add]
  · have h1 : (a + -b).natAbs ≤ 2 ^ 53 := by
      rw [← sub_eq_add_neg]
      exact h
    simp only [JSNum.neg, if_neg hb, JSNum.add, JSNum.ofExact_eq_fin _ h1, sub_eq_add_neg]

/-- A product of non-negative integers that is at most 2^53 is exact. -/
theorem JSNum.fin_mul_fin (a b : Int) (ha : 0 ≤ a) (hb : 0 ≤ b) (h : a * b ≤ 2 ^ 53) :
    JSNum.fin a * JSNum.fin b = JSNum.fin (a * b) := by
  show JSNum.mul (JSNum.fin a) (JSNum.fin b) = _
  have ha1 : ¬ a < 0 := not_lt.2 ha
  have hb1 : ¬ b < 0 := not_lt.2 hb
  by_cases h0 : a * b = 0
  · simp [JSNum.mul, h0, JSNum.zero, ha1, hb1]
  · have hab : 0 ≤ a * b := mul_nonneg ha hb
    have h1 : (a * b).natAbs ≤ 2 ^ 53 := by omega
    simp only [JSNum.mul, if_neg h0, JSNum.ofExact_eq_fin _ h1]

theorem JSNum.ofNat_eq_fin (n : Nat) : (OfNat.ofNat n : JSNum) = JSNum.fin (n : Int) := rfl

/-- The length of `k` cells of size `x` with `k − 1` gaps of size `p`, as
lines 49 and 50 of App.jsx compute it: exact as long as the result, and `k`,
do not exceed 2^53. -/
theorem layoutLength_exact (k x p : Int) (hk : 1 ≤ k) (hx : 0 ≤ x) (hp : 0 ≤ p)
    (hkb : k ≤ 2 ^ 53) (hb : k * x + (k - 1) * p ≤ 2 ^ 53) :
    JSNum.fin k * JSNum.fin x + (JSNum.fin k - 1) * JSNum.fin p
      = JSNum.fin (k * x + (k - 1) * p) := by
  have h1 : 0 ≤ k * x := mul_nonneg (by omega) hx
  have h2 : 0 ≤ (k - 1) * p := mul_nonneg (by omega) hp
  have hsub : JSNum.fin k - 1 = JSNum.fin (k - 1) :=
    JSNum.fin_sub_fin k 1 (by omega)
  rw [hsub, JSNum.fin_mul_fin k x (by omega) hx (by omega),
    JSNum.fin_mul_fin (k - 1) p (by omega) hp (by omega),
    JSNum.fin_add_fin _ _ (by omega)]

/-- The integer ceiling quotient used by `ceilDiv` for a positive divisor is
the least `r` with `n ≤ r * c`. -/
theorem ceilQuot_bounds (n c : Int) (hc : 0 < c) :
    (-((-n) / c) - 1) * c < n ∧ n ≤ (-((-n) / c)) * c := by
  have h1 := Int.ediv_add_emod (-n) c
  have h2 := Int.emod_nonneg (-n) (ne_of_gt hc)
  have h3 := Int.emod_lt_of_pos (-n) hc
  constructor <;> nlinarith

/-- The integer ceiling quotient is the ceiling of the rational quotient. -/
theorem ceilQuot_eq_ceil (n c : Int) (hc : 0 < c) :
    -((-n) / c) = ⌈(n : ℚ) / (c : ℚ)⌉ := by
  obtain ⟨h1, h2⟩ := ceilQuot_bounds n c hc
  have hcq : (0 : ℚ) < (c : ℚ) := by exact_mod_cast hc
  symm
  rw [Int.ceil_eq_iff]
  constructor
  · rw [lt_div_iff₀ hcq]
    exact_mod_cast h1
  · rw [div_le_iff₀ hcq]
    exact_mod_cast h2

/-- For a negative divisor the Euclidean quotient is the ceiling of the
rational quotient. -/
theorem ceilQuotNeg_eq_ceil (n c : Int) (hc : c < 0) :
    n / c = ⌈(n : ℚ) / (c : ℚ)⌉ := by
  have h1 := Int.ediv_add_emod n c
  have h2 := Int.emod_nonneg n (ne_of_lt hc)
  have h3 := Int.emod_lt n (ne_of_lt hc)
  rw [abs_of_neg hc] at h3
  have hcq : (c : ℚ) < 0 := by exact_mod_cast hc
  symm
  rw [Int.ceil_eq_iff]
  constructor
  · rw [lt_div_iff_of_neg hcq]
    have : n < (n / c - 1) * c := by nlinarith
    exact_mod_cast this
  · rw [div_le_iff_of_neg hcq]
    have : (n / c) * c ≤ n := by nlinarith
    exact_mod_cast this

/-- On a positive integer divisor `ceilDiv` is `Math.ceil` of the exact
quotient. -/
theorem ceilDiv_fin_eq_ceil (n : Nat) (c : Int) (hc : 0 < c) :
    JSNum.ceilDiv n (JSNum.fin c) = JSNum.fin ⌈(n : ℚ) / (c : ℚ)⌉ := by
  have h := ceilQuot_eq_ceil (n : Int) c hc
  simp only [Int.cast_natCast] at h
  simp only [JSNum.ceilDiv, if_neg (ne_of_gt hc), if_pos hc, h]

/-- On a negative integer divisor `ceilDiv` is `Math.ceil` of the exact
quotient, a ceiling of zero being `-0`. -/
theorem ceilDiv_fin_neg_eq_ceil (n : Nat) (c : Int) (hc : c < 0) :
    JSNum.ceilDiv n (JSNum.fin c) =
      if ⌈(n : ℚ) / (c : ℚ)⌉ = 0 then JSNum.negZero else JSNum.fin ⌈(n : ℚ) / (c : ℚ)⌉ := by
  have h := ceilQuotNeg_eq_ceil (n : Int) c hc
  simp only [Int.cast_natCast] at h
  simp only [JSNum.ceilDiv, if_neg (ne_of_lt hc), if_neg (not_lt.2 (le_of_lt hc)), h]

/-- On a positive integer divisor `ceilDiv` is the integer ceiling quotient. -/
theorem ceilDiv_fin_pos (n : Nat) (c : Int) (hc : 0 < c) :
    JSNum.ceilDiv n (JSNum.fin c) = JSNum.fin (-((-(n : Int)) / c)) := by
  simp [JSNum.ceilDiv, hc, ne_of_gt hc]

/-- At least one frame needs at least one row. -/
theorem ceilQuot_pos (n c : Int) (hn : 1 ≤ n) (hc : 0 < c) : 1 ≤ -((-n) / c) := by
  obtain ⟨_, hhi⟩ := ceilQuot_bounds n c hc
  by_contra hlt
  have : -((-n) / c) ≤ 0 := by omega
  nlinarith

/-- The value of `calculateDimensions` on integer inputs with a positive
column count and a non-negative padding, as long as the column count, the row
count `r` and the exact width and height do not exceed 2^53. -/
theorem calculateDimensions_int (s : State) (fd : FrameDimensions) (c p r : Int)
    (hfd : s.frameDimensions = some fd) (hN : s.files.length ≠ 0)
    (hc : 0 < c) (hp : 0 ≤ p)
    (hcols : s.cols = JSNum.fin c) (hpad : s.padding = JSNum.fin p)
    (hr : r = -((-(s.files.length : Int)) / c))
    (hcb : c ≤ 2 ^ 53) (hrb : r ≤ 2 ^ 53)
    (hW : c * fd.width + (c - 1) * p ≤ 2 ^ 53)
    (hH : r * fd.height + (r - 1) * p ≤ 2 ^ 53) :
    calculateDimensions s = some
      { width := JSNum.fin (c * fd.width + (c - 1) * p)
        height := JSNum.fin (r * fd.height + (r - 1) * p)
        rows := JSNum.fin r
        cols := JSNum.fin c } := by
  have hr1 : 1 ≤ r := by
    rw [hr]
    exact ceilQuot_pos _ c (by omega) hc
  simp only [calculateDimensions, hfd, hN, if_false, hcols, hpad, ceilDiv_fin_pos _ _ hc, ← hr]
  rw [layoutLength_exact c fd.width p (by omega) (Int.natCast_nonneg _) hp hcb hW,
    layoutLength_exact r fd.height p hr1 (Int.natCast_nonneg _) hp hrb hH]

/-- C1 as stated fails: one 3 × 3 frame with cols = 2^52 + 1 =
4503599627370497 and padding 0.  The exact width cols·w is
13510798882111491, which is not a double; `calculateDimensions` returns the
nearest one, 13510798882111492. -/
theorem C1_formula_not_exact_above_2_53 :
    calculateDimensions (exampleState 1 3 3 4503599627370497 0) = some
      { width := JSNum.fin 13510798882111492, height := JSNum.fin 3, rows := JSNum.fin 1,
        cols := JSNum.fin 4503599627370497 } ∧
    (4503599627370497 : Int) * (3 : Nat) + (4503599627370497 - 1) * 0 = 13510798882111491 ∧
    ¬ (∀ (s : State) (w h : Nat) (c p : Int),
        s.frameDimensions = some { width := w, height := h } →
        1 ≤ s.files.length → 0 < w → 0 < h → 1 ≤ c → 0 ≤ p →
        s.cols = JSNum.fin c → s.padding = JSNum.fin p →
        ∃ d : Dimensions, calculateDimensions s = some d ∧
          d.width = JSNum.fin (c * w + (c - 1) * p)) := by
  have hcode : calculateDimensions (exampleState 1 3 3 4503599627370497 0) = some
      { width := JSNum.fin 13510798882111492, height := JSNum.fin 3, rows := JSNum.fin 1,
        cols := JSNum.fin 4503599627370497 } := by decide
  refine ⟨hcode, by decide, ?_⟩
  intro h
  obtain ⟨d, hd, hwd⟩ :=
    h (exampleState 1 3 3 4503599627370497 0) 3 3 4503599627370497 0 rfl (by decide)
      (by decide) (by decide) (by decide) (by decide) rfl rfl
  rw [hcode] at hd
  cases hd
  exact absurd hwd (by decide)

/-- C1 amended: for N ≥ 1 frames of size w × h (w, h > 0), cols ≥ 1 and
padding p ≥ 0 whose exact width cols·w + (cols−1)·p and exact height
rows·h + (rows−1)·p, with rows = ⌈N / cols⌉, do not exceed 2^53,
`calculateDimensions` returns rows = ⌈N / cols⌉ (the ceiling of the rational
quotient), that width, that height and cols unchanged; and 10 frames of
64 × 64 with cols = 4, p = 2 give rows 3, width 262, height 196. -/
theorem C1_calculateDimensions_formula (s : State) (w h : Nat) (c p : Int)
    (hfd : s.frameDimensions = some { width := w, height := h })
    (hN : 1 ≤ s.files.length) (hw : 0 < w) (hh : 0 < h)
    (hc : 1 ≤ c) (hp : 0 ≤ p)
    (hcols : s.cols = JSNum.fin c) (hpad : s.padding = JSNum.fin p)
    (hW : c * w + (c - 1) * p ≤ 2 ^ 53)
    (hH : ⌈(s.files.length : ℚ) / (c : ℚ)⌉ * h
      + (⌈(s.files.length : ℚ) / (c : ℚ)⌉ - 1) * p ≤ 2 ^ 53) :
    calculateDimensions s = some
      { width := JSNum.fin (c * w + (c - 1) * p)
        height := JSNum.fin (⌈(s.files.length : ℚ) / (c : ℚ)⌉ * h
          + (⌈(s.files.length : ℚ) / (c : ℚ)⌉ - 1) * p)
        rows := JSNum.fin ⌈(s.files.length : ℚ) / (c : ℚ)⌉
        cols := s.cols } ∧
    calculateDimensions (exampleState 10 64 64 4 2) = some
      { width := JSNum.fin 262, height := JSNum.fin 196, rows := JSNum.fin 3,
        cols := JSNum.fin 4 } := by
  have hc0 : 0 < c := by omega
  refine ⟨?_, by decide⟩
  have hceil := ceilQuot_eq_ceil (s.files.length : Int) c hc0
  simp only [Int.cast_natCast] at hceil
  rw [← hceil] at hH ⊢
  have hr1 : 1 ≤ -((-(s.files.length : Int)) / c) :=
    ceilQuot_pos _ c (by omega) hc0
  have hwZ : (1 : Int) ≤ w := by exact_mod_cast hw
  have hhZ : (1 : Int) ≤ h := by exact_mod_cast hh
  have hcb : c ≤ 2 ^ 53 := by nlinarith [mul_nonneg (show (0 : Int) ≤ c - 1 by omega) hp]
  have hrb : -((-(s.files.length : Int)) / c) ≤ 2 ^ 53 := by
    nlinarith [mul_nonneg (show (0 : Int) ≤ -((-(s.files.length : Int)) / c) - 1 by omega) hp]
  rw [calculateDimensions_int s _ c p _ hfd (by omega) hc0 hp hcols hpad rfl hcb hrb hW hH,
    hcols]

/-- C1 amended, at three frames of 16 × 8 in two columns with padding 1. -/
theorem C1_calculateDimensions_formula_witness :
    calculateDimensions (exampleState 3 16 8 2 1) = some
      { width := JSNum.fin (2 * (16 : Nat) + (2 - 1) * 1)
        height := JSNum.fin (⌈(((exampleState 3 16 8 2 1).files.length : Nat) : ℚ) / ((2 : Int) : ℚ)⌉ * (8 : Nat)
          + (⌈(((exampleState 3 16 8 2 1).files.length : Nat) : ℚ) / ((2 : Int) : ℚ)⌉ - 1) * 1)
        rows := JSNum.fin ⌈(((exampleState 3 16 8 2 1).files.length : Nat) : ℚ) / ((2 : Int) : ℚ)⌉
        cols := (exampleState 3 16 8 2 1).cols } :=
  (C1_calculateDimensions_formula (exampleState 3 16 8 2 1) 16 8 2 1 rfl (by decide)
    (by decide) (by decide) (by decide) (by decide) rfl rfl (by decide)
    (by
      have h := ceilQuot_eq_ceil ((exampleState 3 16 8 2 1).files.length : Int) 2 (by decide)
      simp only [Int.cast_natCast] at h
      rw [← h]
      decide)).1

/-- When `calculateDimensions` returns `null`: exactly when no first-frame
size is known or no file is selected. -/
theorem calculateDimensions_eq_none_iff (s : State) :
    calculateDimensions s = none ↔ s.frameDimensions = none ∨ s.files.length = 0 := by
  unfold calculateDimensions
  cases hfd : s.frameDimensions with
  | none => simp
  | some fd =>
    by_cases hN : s.files.length = 0
    · simp [hN]
    · simp [hN]

/-- C2 as stated fails: for 2 frames of 32 × 32 with columns = 1 and
padding = 21 the planner rejects the padding as out of range and has no
geometry, while `calculateDimensions` returns 2 rows, 32 × 85; so predictor
and planner do not produce the same triple for all inputs. -/
theorem C2_predictor_differs_from_planner :
    plan 2 32 32 1 21 = PlanResult.configurationError ∧
    calculateDimensions (exampleState 2 32 32 1 21) = some
      { width := JSNum.fin 32, height := JSNum.fin 85, rows := JSNum.fin 2,
        cols := JSNum.fin 1 } ∧
    ¬ (∀ (s : State) (w h : Nat) (c p : Int),
        s.frameDimensions = some { width := w, height := h } →
        s.cols = JSNum.fin c → s.padding = JSNum.fin p →
        predictedTriple s = plannedTriple (plan s.files.length w h c p)) := by
  refine ⟨by decide, by decide, ?_⟩
  intro h
  have h1 := h (exampleState 2 32 32 1 21) 32 32 1 21 rfl rfl rfl
  have h2 : plan (exampleState 2 32 32 1 21).files.length 32 32 1 21
      = PlanResult.configurationError := by decide
  rw [h2] at h1
  exact absurd h1 (by decide)

/-- C2 amended: for every frame count, cell size w × h (w, h > 0), columns in
1..32 and padding in 0..20 whose planned canvas width and height do not
exceed 2^53, `calculateDimensions` and the planner produce the same
(rows, width, height), or both none for zero frames; and an evaluation of
`calculateDimensions` in any state that agrees on `files.length`,
`frameDimensions`, `cols` and `padding` returns the same result, whatever
its other fields hold. -/
theorem C2_predictor_agrees_with_planner_in_range (s t : State) (w h : Nat) (c p : Int)
    (hfd : s.frameDimensions = some { width := w, height := h })
    (_hw : 0 < w) (hh : 0 < h)
    (hcols : s.cols = JSNum.fin c) (hpad : s.padding = JSNum.fin p)
    (hc1 : 1 ≤ c) (hc2 : c ≤ 32) (hp1 : 0 ≤ p) (hp2 : p ≤ 20)
    (hW : c * w + (c - 1) * p ≤ 2 ^ 53)
    (hH : ⌈(s.files.length : ℚ) / (c : ℚ)⌉ * h
      + (⌈(s.files.length : ℚ) / (c : ℚ)⌉ - 1) * p ≤ 2 ^ 53)
    (hfiles : t.files.length = s.files.length)
    (htfd : t.frameDimensions = s.frameDimensions)
    (htcols : t.cols = s.cols) (htpad : t.padding = s.padding) :
    predictedTriple s = plannedTriple (plan s.files.length w h c p) ∧
    calculateDimensions t = calculateDimensions s ∧
    predictedTriple t = plannedTriple (plan s.files.length w h c p) := by
  have hts : calculateDimensions t = calculateDimensions s := by
    unfold calculateDimensions
    rw [hfiles, htfd, htcols, htpad]
  have hmain : predictedTriple s = plannedTriple (plan s.files.length w h c p) := by
    by_cases hN : s.files.length = 0
    · have hnone : calculateDimensions s = none :=
        (calculateDimensions_eq_none_iff s).2 (Or.inr hN)
      simp [predictedTriple, hnone, plan, hN, plannedTriple]
    · have hc0 : 0 < c := by omega
      have hrange : ¬ (c < 1 ∨ 32 < c ∨ p < 0 ∨ 20 < p) := by omega
      have hceil := ceilQuot_eq_ceil (s.files.length : Int) c hc0
      simp only [Int.cast_natCast] at hceil
      rw [← hceil] at hH
      have hr1 : 1 ≤ -((-(s.files.length : Int)) / c) :=
        ceilQuot_pos _ c (by omega) hc0
      have hhZ : (1 : Int) ≤ h := by exact_mod_cast hh
      have hrb : -((-(s.files.length : Int)) / c) ≤ 2 ^ 53 := by
        nlinarith [mul_nonneg (show (0 : Int) ≤ -((-(s.files.length : Int)) / c) - 1 by omega)
          hp1]
      have hcalc := calculateDimensions_int s _ c p _ hfd hN hc0 hp1 hcols hpad rfl (by omega)
        hrb hW hH
      simp only [predictedTriple, hcalc, plan, if_neg hN, if_neg hrange, plannedTriple,
        Option.map_some', ← hceil]
  refine ⟨hmain, hts, ?_⟩
  rw [← hmain]
  simp only [predictedTriple, hts]

/-- C2 amended, at five frames of 32 × 48 in three columns with padding 1 and
a second state that differs in every field the layout does not read. -/
theorem C2_predictor_agrees_with_planner_in_range_witness :
    predictedTriple (exampleState 5 32 48 3 1) = plannedTriple (plan 5 32 48 3 1) ∧
    calculateDimensions
        { exampleState 5 32 48 3 1 with
          files := (List.range 5).map (fun i => frame (i + 100))
          bgColor := { r := 255, g := 128, b := 0, a := 255 }
          loading := true
          result := some
            { filename := "sheet.png", message := "ok",
              info :=
                { frames := 5, frameWidth := 32, frameHeight := 48, sheetWidth := 98,
                  sheetHeight := 97, gridCols := 3, gridRows := 2, padding := 1 } }
          error := some "stale"
          previewFiles := [{ name := "a.png", url := "blob:a" }]
          showUnityGuide := true } =
      calculateDimensions (exampleState 5 32 48 3 1) := by
  have h := C2_predictor_agrees_with_planner_in_range (exampleState 5 32 48 3 1)
    { exampleState 5 32 48 3 1 with
      files := (List.range 5).map (fun i => frame (i + 100))
      bgColor := { r := 255, g := 128, b := 0, a := 255 }
      loading := true
      result := some
        { filename := "sheet.png", message := "ok",
          info :=
            { frames := 5, frameWidth := 32, frameHeight := 48, sheetWidth := 98,
              sheetHeight := 97, gridCols := 3, gridRows := 2, padding := 1 } }
      error := some "stale"
      previewFiles := [{ name := "a.png", url := "blob:a" }]
      showUnityGuide := true }
    32 48 3 1 rfl (by decide) (by decide) rfl rfl (by decide) (by decide) (by decide)
    (by decide) (by decide)
    (by
      have hc := ceilQuot_eq_ceil ((exampleState 5 32 48 3 1).files.length : Int) 3 (by decide)
      simp only [Int.cast_natCast] at hc
      rw [← hc]
      decide)
    (by decide) rfl rfl rfl
  exact ⟨h.1, h.2.1⟩

/-- C3: `calculateDimensions` returns `null` exactly when the frame count is 0
or the first-frame size is unknown; in particular with zero files also when
`frameDimensions` is still set, as after `resetForm`, which leaves
`frameDimensions` as it was and empties `files`; and the expected-size panel
is not rendered for zero frames. -/
theorem C3_calculateDimensions_null_iff (s : State) :
    (calculateDimensions s = none ↔ s.files.length = 0 ∨ s.frameDimensions = none) ∧
    (∀ fd : FrameDimensions, s.frameDimensions = some fd → s.files.length = 0 →
      calculateDimensions s = none) ∧
    (resetForm s).frameDimensions = s.frameDimensions ∧
    (resetForm s).files.length = 0 ∧
    calculateDimensions (resetForm s) = none ∧
    (s.files.length = 0 → rendersDimensionsPreview s = false) ∧
    rendersDimensionsPreview (resetForm s) = false := by
  have hiff := calculateDimensions_eq_none_iff s
  have hreset : calculateDimensions (resetForm s) = none :=
    (calculateDimensions_eq_none_iff _).2 (Or.inr rfl)
  refine ⟨?_, ?_, rfl, rfl, hreset, ?_, ?_⟩
  · rw [hiff, or_comm]
  · intro fd _ hN
    exact hiff.2 (Or.inr hN)
  · intro hN
    simp [rendersDimensionsPreview, hiff.2 (Or.inr hN)]
  · simp [rendersDimensionsPreview, hreset]

/-- C4: `handleSubmit` with zero selected files sets `error` to
'Please select at least one PNG file', posts no request and leaves every
other field (so `loading` and `result`) as it was; with at least one file it
does not take this branch: it posts a request, sets `loading`, and clears
`error` and `result`. -/
theorem C4_handleSubmit_zero_files_rejected (s : State) :
    (s.files.length = 0 →
      handleSubmit s =
        ({ s with error := some "Please select at least one PNG file" }, none) ∧
      (handleSubmit s).2 = none ∧
      (handleSubmit s).1.error = some "Please select at least one PNG file" ∧
      (handleSubmit s).1.loading = s.loading ∧
      (handleSubmit s).1.result = s.result) ∧
    (1 ≤ s.files.length →
      (handleSubmit s).2 =
        some
          { files := s.files, cols := s.cols, padding := s.padding,
            bg_color_r := s.bgColor.r, bg_color_g := s.bgColor.g,
            bg_color_b := s.bgColor.b, bg_color_a := s.bgColor.a } ∧
      (handleSubmit s).1 = { s with loading := true, error := none, result := none } ∧
      (handleSubmit s).1.error ≠ some "Please select at least one PNG file") := by
  constructor
  · intro h0
    simp [handleSubmit, h0, noFilesMessage]
  · intro h1
    have hne : s.files.length ≠ 0 := by omega
    simp [handleSubmit, hne]

/-- C5 as stated fails: one 64 × 64 frame with cols = 33 and padding = 2
(cols above 32) gets a geometry, 2176 × 64 in 1 row of 33 columns, so not
every out-of-range configuration is rejected. -/
theorem C5_out_of_range_not_rejected :
    calculateDimensions (exampleState 1 64 64 33 2) = some
      { width := JSNum.fin 2176, height := JSNum.fin 64, rows := JSNum.fin 1,
        cols := JSNum.fin 33 } ∧
    ¬ (∀ (s : State) (c p : Int), s.cols = JSNum.fin c → s.padding = JSNum.fin p →
        (c < 1 ∨ 32 < c ∨ p < 0 ∨ 20 < p) → calculateDimensions s = none) := by
  refine ⟨by decide, ?_⟩
  intro h
  have h1 := h (exampleState 1 64 64 33 2) 33 2 rfl rfl (by decide)
  exact absurd h1 (by decide)

/-- C5 amended: `calculateDimensions` neither clamps nor rejects on `cols` or
`padding`: it returns `null` only for zero files or an unknown first-frame
size, whatever `cols` and `padding` are; with at least one file and a known
size it returns a width/height/rows object, also for columns below 1 or
above 32 and padding below 0 or above 20, and the `cols` of that object is
the given `cols`, unchanged. -/
theorem C5_calculateDimensions_no_clamp_no_rejection (s : State) :
    (calculateDimensions s = none ↔ s.frameDimensions = none ∨ s.files.length = 0) ∧
    (∀ fd : FrameDimensions, s.frameDimensions = some fd → s.files.length ≠ 0 →
      ∃ d : Dimensions, calculateDimensions s = some d ∧ d.cols = s.cols) ∧
    (∀ d : Dimensions, calculateDimensions s = some d → d.cols = s.cols) := by
  have hunchanged : ∀ d : Dimensions, calculateDimensions s = some d → d.cols = s.cols := by
    intro d hd
    unfold calculateDimensions at hd
    cases hfd : s.frameDimensions with
    | none => simp [hfd] at hd
    | some fd =>
      by_cases hN : s.files.length = 0
      · simp [hfd, hN] at hd
      · simp only [hfd, hN, if_false, Option.some.injEq] at hd
        rw [← hd]
  refine ⟨calculateDimensions_eq_none_iff s, ?_, hunchanged⟩
  intro fd hfd hN
  cases hcd : calculateDimensions s with
  | none =>
    rcases (calculateDimensions_eq_none_iff s).1 hcd with h | h
    · rw [hfd] at h
      exact absurd h (by simp)
    · exact absurd h hN
  | some d => exact ⟨d, rfl, hunchanged d hcd⟩

/-- The initial state is within the configuration bounds. -/
theorem configInBounds_initialState : configInBounds initialState = true := by decide

/-- An integer in range is stored in range by `parsed || 0`, and so is NaN. -/
theorem inRange_orElse_zero (parsed : JSNum)
    (h : (decide (parsed = JSNum.nan) || inRange 0 255 parsed) = true) :
    inRange 0 255 (JSNum.orElse parsed 0) = true := by
  cases parsed with
  | fin z =>
    by_cases hz : z = 0
    · subst hz; decide
    · simpa [JSNum.orElse, JSNum.truthy, hz] using h
  | negZero => simp [inRange] at h
  | posInf => simp [inRange] at h
  | negInf => simp [inRange] at h
  | nan => decide

/-- The column count "Fit to 640px Width" picks for a width of at least 20 is
in 1..32. -/
theorem fit640_cols_inRange (w : Nat) (hw : 20 ≤ w) :
    inRange 1 32
      (if JSNum.gtZero (JSNum.floorDiv 640 w) then JSNum.floorDiv 640 w else 1) = true := by
  have hw0 : w ≠ 0 := by omega
  have hle : 640 / w ≤ 32 := Nat.div_le_div_left hw (by decide)
  have hfloor : JSNum.floorDiv 640 w = JSNum.fin ((640 / w : Nat) : Int) := by
    simp only [JSNum.floorDiv, if_neg hw0]
  rw [hfloor]
  generalize 640 / w = q at hle
  by_cases hpos : 0 < q
  · have h1 : JSNum.gtZero (JSNum.fin (q : Int)) = true := by
      simp only [JSNum.gtZero, decide_eq_true_eq]
      omega
    simp only [h1, if_true, inRange, Bool.and_eq_true, decide_eq_true_eq]
    omega
  · have h1 : JSNum.gtZero (JSNum.fin (q : Int)) = false := by
      simp only [JSNum.gtZero, decide_eq_false_iff_not]
      omega
    rw [h1]
    rfl

/-- One event within the declared ranges keeps the state within the bounds. -/
theorem configInBounds_step (s s1 : State) (e : Event)
    (hs : configInBounds s = true) (he : withinDeclaredRange s e = true)
    (hstep : step s e = some s1) : configInBounds s1 = true := by
  simp only [configInBounds, Bool.and_eq_true] at hs ⊢
  obtain ⟨⟨⟨⟨⟨hc, hp⟩, hr⟩, hg⟩, hb⟩, ha⟩ := hs
  cases e with
  | fileChange selectedFiles =>
    simp only [step, Option.some.injEq] at hstep
    subst hstep
    unfold handleFileChange
    split <;> exact ⟨⟨⟨⟨⟨hc, hp⟩, hr⟩, hg⟩, hb⟩, ha⟩
  | imageLoaded width height =>
    simp only [step, Option.some.injEq] at hstep
    subst hstep
    exact ⟨⟨⟨⟨⟨hc, hp⟩, hr⟩, hg⟩, hb⟩, ha⟩
  | colsChange parsed =>
    simp only [step, Option.some.injEq] at hstep
    subst hstep
    exact ⟨⟨⟨⟨⟨he, hp⟩, hr⟩, hg⟩, hb⟩, ha⟩
  | paddingChange parsed =>
    simp only [step, Option.some.injEq] at hstep
    subst hstep
    exact ⟨⟨⟨⟨⟨hc, he⟩, hr⟩, hg⟩, hb⟩, ha⟩
  | bgColorChange ch parsed =>
    simp only [step, Option.some.injEq] at hstep
    subst hstep
    have hv := inRange_orElse_zero parsed he
    cases ch
    · exact ⟨⟨⟨⟨⟨hc, hp⟩, hv⟩, hg⟩, hb⟩, ha⟩
    · exact ⟨⟨⟨⟨⟨hc, hp⟩, hr⟩, hv⟩, hb⟩, ha⟩
    · exact ⟨⟨⟨⟨⟨hc, hp⟩, hr⟩, hg⟩, hv⟩, ha⟩
    · exact ⟨⟨⟨⟨⟨hc, hp⟩, hr⟩, hg⟩, hb⟩, hv⟩
  | submit =>
    simp only [step, Option.some.injEq] at hstep
    subst hstep
    unfold handleSubmit
    split <;> exact ⟨⟨⟨⟨⟨hc, hp⟩, hr⟩, hg⟩, hb⟩, ha⟩
  | submitResolved data =>
    simp only [step, Option.some.injEq] at hstep
    subst hstep
    exact ⟨⟨⟨⟨⟨hc, hp⟩, hr⟩, hg⟩, hb⟩, ha⟩
  | submitRejected detail =>
    simp only [step, Option.some.injEq] at hstep
    subst hstep
    exact ⟨⟨⟨⟨⟨hc, hp⟩, hr⟩, hg⟩, hb⟩, ha⟩
  | reset =>
    simp only [step, Option.some.injEq] at hstep
    subst hstep
    exact ⟨⟨⟨⟨⟨hc, hp⟩, hr⟩, hg⟩, hb⟩, ha⟩
  | presetPreserveSize =>
    simp only [step] at hstep
    split at hstep
    · simp only [Option.some.injEq] at hstep
      subst hstep
      exact ⟨⟨⟨⟨⟨rfl, rfl⟩, hr⟩, hg⟩, hb⟩, ha⟩
    · exact absurd hstep (by simp)
  | presetCompactGrid =>
    simp only [step] at hstep
    split at hstep
    · simp only [Option.some.injEq] at hstep
      subst hstep
      simp only [withinDeclaredRange, decide_eq_true_eq] at he
      refine ⟨⟨⟨⟨⟨?_, rfl⟩, hr⟩, hg⟩, hb⟩, ha⟩
      simp only [presetCompactGrid, inRange, Bool.and_eq_true, decide_eq_true_eq]
      omega
    · exact absurd hstep (by simp)
  | presetSingleRow =>
    simp only [step] at hstep
    split at hstep
    · simp only [Option.some.injEq] at hstep
      subst hstep
      simp only [withinDeclaredRange, Bool.and_eq_true, decide_eq_true_eq] at he
      refine ⟨⟨⟨⟨⟨?_, rfl⟩, hr⟩, hg⟩, hb⟩, ha⟩
      simp only [presetSingleRow, inRange, Bool.and_eq_true, decide_eq_true_eq]
      omega
    · exact absurd hstep (by simp)
  | presetFit640 =>
    simp only [step, presetFit640] at hstep
    cases hfd : s.frameDimensions with
    | none => simp [hfd] at hstep
    | some fd =>
      simp only [hfd, Option.some.injEq] at hstep
      subst hstep
      simp only [withinDeclaredRange, hfd, decide_eq_true_eq] at he
      exact ⟨⟨⟨⟨⟨fit640_cols_inRange fd.width he, rfl⟩, hr⟩, hg⟩, hb⟩, ha⟩
  | toggleUnityGuide =>
    simp only [step] at hstep
    split at hstep
    · simp only [Option.some.injEq] at hstep
      subst hstep
      exact ⟨⟨⟨⟨⟨hc, hp⟩, hr⟩, hg⟩, hb⟩, ha⟩
    · exact absurd hstep (by simp)

/-- A run of events within the declared ranges keeps the state within the
bounds. -/
theorem configInBounds_run (es : List Event) :
    ∀ s s1 : State, configInBounds s = true → allWithinDeclaredRange s es = true →
      run s es = some s1 → configInBounds s1 = true := by
  induction es with
  | nil =>
    intro s s1 hs _ hrun
    simp only [run, Option.some.injEq] at hrun
    subst hrun
    exact hs
  | cons e es ih =>
    intro s s1 hs hall hrun
    simp only [allWithinDeclaredRange, Bool.and_eq_true] at hall
    simp only [run] at hrun
    cases hstep : step s e with
    | none => simp [hstep] at hrun
    | some s2 =>
      simp only [hstep] at hrun hall
      exact ih s2 s1 (configInBounds_step s s2 e hs hall.1 hstep) hall.2 hrun

/-- What `inRange` decides. -/
theorem inRange_iff (lo hi : Int) (v : JSNum) :
    inRange lo hi v = true ↔ ∃ z : Int, v = JSNum.fin z ∧ lo ≤ z ∧ z ≤ hi := by
  cases v <;> simp [inRange]

/-- C6 as stated fails: from the initial state, typing 33 into the columns
input, 21 into the padding input or 256 into a colour input leaves the
bounds; so do "Single Row" with 33 files (cols = 33), "Fit to 640px Width"
with a 16 pixel wide frame (cols = 40), and "Single Row" after a reset, when
no file is selected (cols = 0). -/
theorem C6_bounds_not_invariant :
    (run initialState [Event.colsChange (JSNum.fin 33)]).map configInBounds = some false ∧
    (run initialState [Event.paddingChange (JSNum.fin 21)]).map configInBounds = some false ∧
    (run initialState [Event.bgColorChange Channel.r (JSNum.fin 256)]).map configInBounds
      = some false ∧
    (run initialState
      [Event.fileChange ((List.range 33).map frame), Event.imageLoaded 64 64,
        Event.presetSingleRow]).map State.cols = some (JSNum.fin 33) ∧
    (run initialState
      [Event.fileChange [frame 0], Event.imageLoaded 16 16,
        Event.presetFit640]).map State.cols = some (JSNum.fin 40) ∧
    (run initialState
      [Event.fileChange [frame 0], Event.imageLoaded 64 64, Event.reset,
        Event.presetSingleRow]).map State.cols = some (JSNum.fin 0) ∧
    ¬ (∀ (es : List Event) (s : State), run initialState es = some s →
        configInBounds s = true) := by
  refine ⟨by decide, by decide, by decide, by decide, by decide, by decide, ?_⟩
  intro h
  have h1 := h [Event.colsChange (JSNum.fin 33)] _ rfl
  exact absurd h1 (by decide)

/-- C6 amended: from the initial state, after any sequence of handler
invocations in which every columns change carries a value in 1..32, every
padding change a value in 0..20, every colour change a value in 0..255 or
NaN, "Compact Grid" is used with at least one file selected, "Single Row"
with 1..32 files and "Fit to 640px Width" with a first-frame width of at
least 20, the state has 1 ≤ cols ≤ 32, 0 ≤ padding ≤ 20 and every colour
channel in 0..255. -/
theorem C6_bounds_hold_within_declared_ranges (es : List Event) (s : State)
    (hrun : run initialState es = some s)
    (hall : allWithinDeclaredRange initialState es = true) :
    configInBounds s = true ∧
    (∃ c : Int, s.cols = JSNum.fin c ∧ 1 ≤ c ∧ c ≤ 32) ∧
    (∃ p : Int, s.padding = JSNum.fin p ∧ 0 ≤ p ∧ p ≤ 20) ∧
    (∃ r : Int, s.bgColor.r = JSNum.fin r ∧ 0 ≤ r ∧ r ≤ 255) ∧
    (∃ g : Int, s.bgColor.g = JSNum.fin g ∧ 0 ≤ g ∧ g ≤ 255) ∧
    (∃ b : Int, s.bgColor.b = JSNum.fin b ∧ 0 ≤ b ∧ b ≤ 255) ∧
    (∃ a : Int, s.bgColor.a = JSNum.fin a ∧ 0 ≤ a ∧ a ≤ 255) := by
  have h := configInBounds_run es initialState s configInBounds_initialState hall hrun
  refine ⟨h, ?_⟩
  simp only [configInBounds, Bool.and_eq_true] at h
  obtain ⟨⟨⟨⟨⟨hc, hp⟩, hr⟩, hg⟩, hb⟩, ha⟩ := h
  exact ⟨(inRange_iff _ _ _).1 hc, (inRange_iff _ _ _).1 hp, (inRange_iff _ _ _).1 hr,
    (inRange_iff _ _ _).1 hg, (inRange_iff _ _ _).1 hb, (inRange_iff _ _ _).1 ha⟩

/-- C6 amended, on `exampleSession`. -/
theorem C6_bounds_hold_within_declared_ranges_witness :
    run initialState exampleSession = some exampleSessionEnd ∧
    allWithinDeclaredRange initialState exampleSession = true ∧
    configInBounds exampleSessionEnd = true :=
  ⟨by decide, by decide,
    (C6_bounds_hold_within_declared_ranges exampleSession exampleSessionEnd
      (by decide) (by decide)).1⟩

/-- The rows value of `calculateDimensions` for an integer column count
c ≥ 1, whatever the padding. -/
theorem calculateDimensions_rows (s : State) (fd : FrameDimensions) (c : Int)
    (hfd : s.frameDimensions = some fd) (hN : s.files.length ≠ 0)
    (hc : 0 < c) (hcols : s.cols = JSNum.fin c) :
    ∃ d : Dimensions, calculateDimensions s = some d ∧
      d.rows = JSNum.fin (-((-(s.files.length : Int)) / c)) := by
  have h : calculateDimensions s = some
      { width := s.cols * JSNum.fin fd.width + (s.cols - 1) * s.padding
        height := JSNum.ceilDiv s.files.length s.cols * JSNum.fin fd.height
          + (JSNum.ceilDiv s.files.length s.cols - 1) * s.padding
        rows := JSNum.ceilDiv s.files.length s.cols
        cols := s.cols } := by
    simp [calculateDimensions, hfd, hN]
  exact ⟨_, h, by simp only [hcols, ceilDiv_fin_pos _ _ hc]⟩

/-- C7: for N ≥ 1 files and cols ≥ 1 the rows value returned by
`calculateDimensions` is the least integer r with r·cols ≥ N:
(rows−1)·cols < N ≤ rows·cols, every row before the last is full, the last
row holds between 1 and cols frames, the number of unfilled cells
rows·cols − N is below cols and is 0 exactly when cols divides N; and 3
frames in 4 columns give rows = 1 with one unfilled cell, index 3, the 4th
cell (column 3) of row 0. -/
theorem C7_rows_is_least_cover (s : State) (fd : FrameDimensions) (c : Int)
    (hfd : s.frameDimensions = some fd) (hN : 1 ≤ s.files.length)
    (hc : 1 ≤ c) (hcols : s.cols = JSNum.fin c) :
    (∃ (d : Dimensions) (r : Int), calculateDimensions s = some d ∧ d.rows = JSNum.fin r ∧
      1 ≤ r ∧
      (r - 1) * c < s.files.length ∧ (s.files.length : Int) ≤ r * c ∧
      (∀ r1 : Int, (s.files.length : Int) ≤ r1 * c → r ≤ r1) ∧
      (∀ j : Int, 0 ≤ j → j < r - 1 → (j + 1) * c ≤ s.files.length) ∧
      1 ≤ (s.files.length : Int) - (r - 1) * c ∧
      (s.files.length : Int) - (r - 1) * c ≤ c ∧
      0 ≤ r * c - s.files.length ∧ r * c - s.files.length < c ∧
      (r * c - s.files.length = 0 ↔ c ∣ (s.files.length : Int))) ∧
    (∃ d : Dimensions, calculateDimensions (exampleState 3 64 64 4 0) = some d ∧
      d.rows = JSNum.fin 1 ∧ (1 : Int) * 4 - 3 = 1 ∧
      (∀ i : Nat, 3 ≤ i → i < 1 * 4 → i = 3) ∧ 3 % 4 = 3 ∧ 3 / 4 = 0) := by
  have hc0 : 0 < c := by omega
  constructor
  · obtain ⟨d, hd, hrows⟩ := calculateDimensions_rows s fd c hfd (by omega) hc0 hcols
    obtain ⟨hlo, hhi⟩ := ceilQuot_bounds (s.files.length : Int) c hc0
    generalize -((-(s.files.length : Int)) / c) = r at hrows hlo hhi
    have hNpos : (1 : Int) ≤ s.files.length := by exact_mod_cast hN
    have hr : 1 ≤ r := by
      by_contra hlt
      have : r ≤ 0 := by omega
      nlinarith
    refine ⟨d, r, hd, hrows, hr, hlo, hhi, ?_, ?_, ?_, ?_, ?_, ?_, ?_⟩
    · intro r1 h1
      by_contra hlt
      have : r1 ≤ r - 1 := by omega
      nlinarith
    · intro j _ hj
      have : j + 1 ≤ r - 1 := by omega
      nlinarith
    · linarith
    · linarith
    · linarith
    · linarith
    · constructor
      · intro h0
        exact ⟨r, by linarith⟩
      · rintro ⟨k, hk⟩
        have hk1 : r - 1 < k := by
          by_contra hle
          have : k ≤ r - 1 := by omega
          nlinarith
        have hk2 : k ≤ r := by
          by_contra hgt
          have : r + 1 ≤ k := by omega
          nlinarith
        have : k = r := by omega
        subst this
        linarith
  · refine ⟨_, rfl, by decide, by decide, ?_, by decide, by decide⟩
    intro i h1 h2
    omega

/-- C7 at seven frames of 8 × 8 in three columns. -/
theorem C7_rows_is_least_cover_witness :
    ∃ (d : Dimensions) (r : Int),
      calculateDimensions (exampleState 7 8 8 3 2) = some d ∧ d.rows = JSNum.fin r ∧
      (r - 1) * 3 < 7 ∧ (7 : Int) ≤ r * 3 := by
  obtain ⟨d, r, hd, hr, _, h1, h2, _⟩ :=
    (C7_rows_is_least_cover (exampleState 7 8 8 3 2) { width := 8, height := 8 } 3
      rfl (by decide) (by decide) rfl).1
  exact ⟨d, r, hd, hr, h1, h2⟩

/-- C8 as stated fails: one 1 × 1 frame with cols = 2^53 =
9007199254740992.  With padding 0 the width is 2^53; with padding 1 the exact
width 2^54 − 1 is not a double and `calculateDimensions` returns 2^54 =
18014398509481984, so the width grows by 2^53, not by cols − 1. -/
theorem C8_padding_step_not_exact_above_2_53 :
    calculateDimensions (exampleState 1 1 1 9007199254740992 0) = some
      { width := JSNum.fin 9007199254740992, height := JSNum.fin 1, rows := JSNum.fin 1,
        cols := JSNum.fin 9007199254740992 } ∧
    calculateDimensions (exampleState 1 1 1 9007199254740992 1) = some
      { width := JSNum.fin 18014398509481984, height := JSNum.fin 1, rows := JSNum.fin 1,
        cols := JSNum.fin 9007199254740992 } ∧
    (18014398509481984 : Int) ≠ 9007199254740992 + (9007199254740992 - 1) ∧
    ¬ (∀ (s : State) (w h : Nat) (c p : Int),
        s.frameDimensions = some { width := w, height := h } →
        1 ≤ s.files.length → 0 < w → 0 < h → 1 ≤ c → 0 ≤ p →
        s.cols = JSNum.fin c → s.padding = JSNum.fin p →
        ∃ (d d1 : Dimensions) (wd : Int), calculateDimensions s = some d ∧
          calculateDimensions { s with padding := JSNum.fin (p + 1) } = some d1 ∧
          d.width = JSNum.fin wd ∧ d1.width = JSNum.fin (wd + (c - 1))) := by
  have h0 : calculateDimensions (exampleState 1 1 1 9007199254740992 0) = some
      { width := JSNum.fin 9007199254740992, height := JSNum.fin 1, rows := JSNum.fin 1,
        cols := JSNum.fin 9007199254740992 } := by decide
  have h1 : calculateDimensions (exampleState 1 1 1 9007199254740992 1) = some
      { width := JSNum.fin 18014398509481984, height := JSNum.fin 1, rows := JSNum.fin 1,
        cols := JSNum.fin 9007199254740992 } := by decide
  refine ⟨h0, h1, by decide, ?_⟩
  intro h
  obtain ⟨d, d1, wd, hd, hd1, hwd, hwd1⟩ :=
    h (exampleState 1 1 1 9007199254740992 0) 1 1 9007199254740992 0 rfl (by decide)
      (by decide) (by decide) (by decide) (by decide) rfl rfl
  rw [h0] at hd
  have hd1' : calculateDimensions (exampleState 1 1 1 9007199254740992 1) = some d1 := hd1
  rw [h1] at hd1'
  cases hd
  cases hd1'
  simp only [JSNum.fin.injEq] at hwd hwd1
  omega

/-- C8 amended: padding lies between cells only.  For N ≥ 1 frames of size
w × h (w, h > 0), cols ≥ 1 and padding p ≥ 0 for which the exact width and
height at padding p + 1 do not exceed 2^53, `calculateDimensions` with
cols = 1 returns width = w and with N ≤ cols returns height = h, whatever p
is; and raising p by 1 raises the width by exactly cols − 1 and the height by
exactly rows − 1, rows and cols staying the same. -/
theorem C8_padding_between_cells_only (s : State) (w h : Nat) (c p : Int)
    (hfd : s.frameDimensions = some { width := w, height := h })
    (hN : 1 ≤ s.files.length) (hw : 0 < w) (hh : 0 < h)
    (hc : 1 ≤ c) (hp : 0 ≤ p)
    (hcols : s.cols = JSNum.fin c) (hpad : s.padding = JSNum.fin p)
    (hW : c * w + (c - 1) * (p + 1) ≤ 2 ^ 53)
    (hH : ⌈(s.files.length : ℚ) / (c : ℚ)⌉ * h
      + (⌈(s.files.length : ℚ) / (c : ℚ)⌉ - 1) * (p + 1) ≤ 2 ^ 53) :
    ∃ wd ht r : Int,
      calculateDimensions s = some
        { width := JSNum.fin wd, height := JSNum.fin ht, rows := JSNum.fin r,
          cols := JSNum.fin c } ∧
      calculateDimensions { s with padding := JSNum.fin (p + 1) } = some
        { width := JSNum.fin (wd + (c - 1)), height := JSNum.fin (ht + (r - 1)),
          rows := JSNum.fin r, cols := JSNum.fin c } ∧
      (c = 1 → wd = w) ∧
      ((s.files.length : Int) ≤ c → r = 1 ∧ ht = h) := by
  have hc0 : 0 < c := by omega
  have hN0 : s.files.length ≠ 0 := by omega
  have hceil := ceilQuot_eq_ceil (s.files.length : Int) c hc0
  simp only [Int.cast_natCast] at hceil
  rw [← hceil] at hH
  have hr1 : 1 ≤ -((-(s.files.length : Int)) / c) := ceilQuot_pos _ c (by omega) hc0
  obtain ⟨hlo, hhi⟩ := ceilQuot_bounds (s.files.length : Int) c hc0
  have hwZ : (1 : Int) ≤ w := by exact_mod_cast hw
  have hhZ : (1 : Int) ≤ h := by exact_mod_cast hh
  have hNpos : (1 : Int) ≤ s.files.length := by exact_mod_cast hN
  obtain ⟨r, hr⟩ : ∃ r : Int, r = -((-(s.files.length : Int)) / c) := ⟨_, rfl⟩
  rw [← hr] at hH hr1 hlo hhi
  have hgw : 0 ≤ (c - 1) * (p + 1) := mul_nonneg (by omega) (by omega)
  have hgh : 0 ≤ (r - 1) * (p + 1) := mul_nonneg (by omega) (by omega)
  have hcb : c ≤ 2 ^ 53 := by nlinarith
  have hrb : r ≤ 2 ^ 53 := by nlinarith
  have hW0 : c * w + (c - 1) * p ≤ 2 ^ 53 := by nlinarith
  have hH0 : r * h + (r - 1) * p ≤ 2 ^ 53 := by nlinarith
  have hbase := calculateDimensions_int s _ c p r hfd hN0 hc0 hp hcols hpad hr hcb hrb hW0 hH0
  have hstep := calculateDimensions_int { s with padding := JSNum.fin (p + 1) } _ c (p + 1) r
    hfd hN0 hc0 (by omega) hcols rfl hr hcb hrb hW hH
  refine ⟨_, _, _, hbase, ?_, ?_, ?_⟩
  · rw [hstep]
    simp only [Option.some.injEq, Dimensions.mk.injEq, JSNum.fin.injEq, and_true]
    constructor <;> ring
  · intro h1
    subst h1
    simp
  · intro hle
    have hr2 : r ≤ 1 := by
      by_contra hgt
      have : 1 ≤ r - 1 := by omega
      nlinarith
    have hr3 : r = 1 := by omega
    rw [hr3]
    simp

/-- C8 amended, at five frames of 16 × 24 in two columns with padding 3. -/
theorem C8_padding_between_cells_only_witness :
    ∃ wd ht r : Int,
      calculateDimensions (exampleState 5 16 24 2 3) = some
        { width := JSNum.fin wd, height := JSNum.fin ht, rows := JSNum.fin r,
          cols := JSNum.fin 2 } ∧
      calculateDimensions { exampleState 5 16 24 2 3 with padding := JSNum.fin (3 + 1) } = some
        { width := JSNum.fin (wd + (2 - 1)), height := JSNum.fin (ht + (r - 1)),
          rows := JSNum.fin r, cols := JSNum.fin 2 } := by
  obtain ⟨wd, ht, r, h1, h2, _⟩ :=
    C8_padding_between_cells_only (exampleState 5 16 24 2 3) 16 24 2 3 rfl (by decide)
      (by decide) (by decide) (by decide) (by decide) rfl rfl (by decide)
      (by
        have hc := ceilQuot_eq_ceil ((exampleState 5 16 24 2 3).files.length : Int) 2 (by decide)
        simp only [Int.cast_natCast] at hc
        rw [← hc]
        decide)
  exact ⟨wd, ht, r, h1, h2⟩

/-- C9 as stated fails: three 1 × 1 frames in one column with padding
2^52 + 1 = 4503599627370497.  The exact height 3 + 2·p = 9007199254740997 is
not a double and `calculateDimensions` returns 9007199254740996, while the
cell of frame 2 (column 0, row 2) starts at y = 9007199254740996 and ends at
9007199254740997, below the returned height. -/
theorem C9_last_frame_outside_above_2_53 :
    calculateDimensions (exampleState 3 1 1 1 4503599627370497) = some
      { width := JSNum.fin 1, height := JSNum.fin 9007199254740996, rows := JSNum.fin 3,
        cols := JSNum.fin 1 } ∧
    cellOf 2 1 = (0, 2) ∧
    cellOrigin 2 1 1 1 4503599627370497 = (0, 9007199254740996) ∧
    ¬ ((cellOrigin 2 1 1 1 4503599627370497).2 + (1 : Nat) ≤ 9007199254740996) ∧
    ¬ (∀ (s : State) (w h : Nat) (c p : Int) (i : Nat),
        s.frameDimensions = some { width := w, height := h } →
        1 ≤ s.files.length → 0 < w → 0 < h → 1 ≤ c → 0 ≤ p →
        s.cols = JSNum.fin c → s.padding = JSNum.fin p → i < s.files.length →
        ∃ (d : Dimensions) (ht : Int), calculateDimensions s = some d ∧
          d.height = JSNum.fin ht ∧ (cellOrigin i c w h p).2 + h ≤ ht) := by
  have hcode : calculateDimensions (exampleState 3 1 1 1 4503599627370497) = some
      { width := JSNum.fin 1, height := JSNum.fin 9007199254740996, rows := JSNum.fin 3,
        cols := JSNum.fin 1 } := by decide
  refine ⟨hcode, by decide, by decide, by decide, ?_⟩
  intro h
  obtain ⟨d, ht, hd, hht, hfit⟩ :=
    h (exampleState 3 1 1 1 4503599627370497) 1 1 1 4503599627370497 2 rfl (by decide)
      (by decide) (by decide) (by decide) (by decide) rfl rfl (by decide)
  rw [hcode] at hd
  cases hd
  simp only [JSNum.fin.injEq] at hht
  subst hht
  exact absurd hfit (by decide)

/-- C9 amended: the predicted canvas holds every frame at its row-major cell
as long as the exact width and height do not exceed 2^53.  For N ≥ 1 frames
of size w × h (w, h > 0), cols ≥ 1, padding p ≥ 0 with
cols·w + (cols−1)·p ≤ 2^53 and rows·h + (rows−1)·p ≤ 2^53, and every index
i < N, the cell (col, row) = (i mod cols, i div cols) lies in the grid
(0 ≤ col ≤ cols − 1, 0 ≤ row ≤ rows − 1) and the w × h rectangle at
(col·(w+p), row·(h+p)) lies within the width and height `calculateDimensions`
returns, reaching the right edge exactly for col = cols − 1 and the bottom
edge exactly for row = rows − 1; index 5 with 4 columns is cell (1, 1). -/
theorem C9_every_frame_fits_predicted_canvas (s : State) (w h : Nat) (c p : Int) (i : Nat)
    (hfd : s.frameDimensions = some { width := w, height := h })
    (hN : 1 ≤ s.files.length) (hw : 0 < w) (hh : 0 < h)
    (hc : 1 ≤ c) (hp : 0 ≤ p)
    (hcols : s.cols = JSNum.fin c) (hpad : s.padding = JSNum.fin p)
    (hi : i < s.files.length)
    (hW : c * w + (c - 1) * p ≤ 2 ^ 53)
    (hH : ⌈(s.files.length : ℚ) / (c : ℚ)⌉ * h
      + (⌈(s.files.length : ℚ) / (c : ℚ)⌉ - 1) * p ≤ 2 ^ 53) :
    (∃ wd ht r : Int,
      calculateDimensions s = some
        { width := JSNum.fin wd, height := JSNum.fin ht, rows := JSNum.fin r,
          cols := JSNum.fin c } ∧
      cellOf i c = ((i : Int) % c, (i : Int) / c) ∧
      cellOrigin i c w h p = ((cellOf i c).1 * (w + p), (cellOf i c).2 * (h + p)) ∧
      0 ≤ (cellOf i c).1 ∧ (cellOf i c).1 ≤ c - 1 ∧
      0 ≤ (cellOf i c).2 ∧ (cellOf i c).2 ≤ r - 1 ∧
      0 ≤ (cellOrigin i c w h p).1 ∧ 0 ≤ (cellOrigin i c w h p).2 ∧
      (cellOrigin i c w h p).1 + w ≤ wd ∧
      (cellOrigin i c w h p).2 + h ≤ ht ∧
      ((cellOf i c).1 = c - 1 → (cellOrigin i c w h p).1 + w = wd) ∧
      ((cellOf i c).2 = r - 1 → (cellOrigin i c w h p).2 + h = ht)) ∧
    cellOf 5 4 = (1, 1) := by
  have hc0 : 0 < c := by omega
  have hN0 : s.files.length ≠ 0 := by omega
  refine ⟨?_, by decide⟩
  have hceil := ceilQuot_eq_ceil (s.files.length : Int) c hc0
  simp only [Int.cast_natCast] at hceil
  rw [← hceil] at hH
  have hr1 : 1 ≤ -((-(s.files.length : Int)) / c) := ceilQuot_pos _ c (by omega) hc0
  obtain ⟨hlo, hhi⟩ := ceilQuot_bounds (s.files.length : Int) c hc0
  obtain ⟨r, hr⟩ : ∃ r : Int, r = -((-(s.files.length : Int)) / c) := ⟨_, rfl⟩
  rw [← hr] at hH hr1 hlo hhi
  have hwZ : (1 : Int) ≤ w := by exact_mod_cast hw
  have hhZ : (1 : Int) ≤ h := by exact_mod_cast hh
  have hgw : 0 ≤ (c - 1) * p := mul_nonneg (by omega) hp
  have hgh : 0 ≤ (r - 1) * p := mul_nonneg (by omega) hp
  have hcb : c ≤ 2 ^ 53 := by nlinarith
  have hrb : r ≤ 2 ^ 53 := by nlinarith
  refine ⟨_, _, _, calculateDimensions_int s _ c p r hfd hN0 hc0 hp hcols hpad hr hcb hrb hW hH,
    rfl, rfl, ?_⟩
  have hiN : (i : Int) < s.files.length := by exact_mod_cast hi
  have hi0 : (0 : Int) ≤ i := Int.natCast_nonneg i
  have hcol0 : 0 ≤ (i : Int) % c := Int.emod_nonneg _ (ne_of_gt hc0)
  have hcol1 : (i : Int) % c < c := Int.emod_lt_of_pos _ hc0
  have hdecomp : c * ((i : Int) / c) + (i : Int) % c = i := Int.ediv_add_emod _ _
  have hrow0 : 0 ≤ (i : Int) / c := Int.ediv_nonneg hi0 (le_of_lt hc0)
  have hrow1 : (i : Int) / c ≤ r - 1 := by
    by_contra hgt
    have : r ≤ (i : Int) / c := by omega
    nlinarith
  have hw0 : (0 : Int) ≤ w := Int.natCast_nonneg w
  have hh0 : (0 : Int) ≤ h := Int.natCast_nonneg h
  simp only [cellOrigin, cellOf]
  refine ⟨hcol0, by omega, hrow0, hrow1, ?_, ?_, ?_, ?_, ?_, ?_⟩
  · positivity
  · positivity
  · nlinarith
  · nlinarith
  · intro he
    rw [he]
    ring
  · intro he
    rw [he]
    ring

/-- C9 amended, at frame 5 of six 32 × 32 frames in four columns with
padding 2. -/
theorem C9_every_frame_fits_predicted_canvas_witness :
    ∃ wd ht r : Int,
      calculateDimensions (exampleState 6 32 32 4 2) = some
        { width := JSNum.fin wd, height := JSNum.fin ht, rows := JSNum.fin r,
          cols := JSNum.fin 4 } ∧
      (cellOrigin 5 4 32 32 2).1 + (32 : Nat) ≤ wd ∧
      (cellOrigin 5 4 32 32 2).2 + (32 : Nat) ≤ ht := by
  obtain ⟨wd, ht, r, h1, _, _, _, _, _, _, _, _, h2, h3, _⟩ :=
    (C9_every_frame_fits_predicted_canvas (exampleState 6 32 32 4 2) 32 32 4 2 5 rfl
      (by decide) (by decide) (by decide) (by decide) (by decide) rfl rfl (by decide)
      (by decide)
      (by
        have hc := ceilQuot_eq_ceil ((exampleState 6 32 32 4 2).files.length : Int) 4 (by decide)
        simp only [Int.cast_natCast] at hc
        rw [← hc]
        decide)).1
  exact ⟨wd, ht, r, h1, h2, h3⟩

/-- The width and cols of what `calculateDimensions` returns on integer
inputs with a positive column count and a non-negative padding, as long as
the column count and the exact width do not exceed 2^53; the height may be
anything. -/
theorem calculateDimensions_width (s : State) (fd : FrameDimensions) (c p : Int)
    (hfd : s.frameDimensions = some fd) (hN : s.files.length ≠ 0)
    (hc : 0 < c) (hp : 0 ≤ p)
    (hcols : s.cols = JSNum.fin c) (hpad : s.padding = JSNum.fin p)
    (hcb : c ≤ 2 ^ 53) (hW : c * fd.width + (c - 1) * p ≤ 2 ^ 53) :
    ∃ d : Dimensions, calculateDimensions s = some d ∧
      d.width = JSNum.fin (c * fd.width + (c - 1) * p) ∧ d.cols = JSNum.fin c := by
  have h : calculateDimensions s = some
      { width := s.cols * JSNum.fin fd.width + (s.cols - 1) * s.padding
        height := JSNum.ceilDiv s.files.length s.cols * JSNum.fin fd.height
          + (JSNum.ceilDiv s.files.length s.cols - 1) * s.padding
        rows := JSNum.ceilDiv s.files.length s.cols
        cols := s.cols } := by
    simp only [calculateDimensions, hfd, hN, if_false]
  refine ⟨_, h, ?_, hcols⟩
  simp only [hcols, hpad]
  exact layoutLength_exact c fd.width p (by omega) (Int.natCast_nonneg _) hp hcb hW

/-- C10: with a first-frame width w ≥ 1 the preset "Fit to 640px Width" sets
padding to 0 and cols to ⌊640 / w⌋, or to 1 when that is 0, so cols ≥ 1; and
for 1 ≤ w ≤ 640 the width `calculateDimensions` then returns is cols·w with
cols·w ≤ 640 < (cols+1)·w, so cols is the largest column count whose sheet
fits in 640 pixels. -/
theorem C10_fit640_largest_fitting_cols (s : State) (fd : FrameDimensions)
    (hfd : s.frameDimensions = some fd) (hw : 1 ≤ fd.width) :
    ∃ c : Int,
      presetFit640 s = some { s with cols := JSNum.fin c, padding := JSNum.fin 0 } ∧
      c = (if 640 / fd.width = 0 then 1 else ((640 / fd.width : Nat) : Int)) ∧
      1 ≤ c ∧
      (fd.width ≤ 640 →
        c = ((640 / fd.width : Nat) : Int) ∧
        c * fd.width ≤ 640 ∧ 640 < (c + 1) * fd.width ∧
        (∀ c1 : Int, c1 * fd.width ≤ 640 → c1 ≤ c) ∧
        (s.files.length ≠ 0 →
          ∃ d : Dimensions,
            calculateDimensions { s with cols := JSNum.fin c, padding := JSNum.fin 0 } = some d ∧
            d.width = JSNum.fin (c * fd.width) ∧ d.cols = JSNum.fin c ∧
            ∃ wd : Int, d.width = JSNum.fin wd ∧ wd ≤ 640 ∧ 640 < wd + fd.width)) := by
  have hw0 : fd.width ≠ 0 := by omega
  have hfloor : JSNum.floorDiv 640 fd.width = JSNum.fin ((640 / fd.width : Nat) : Int) := by
    simp only [JSNum.floorDiv, if_neg hw0]
  have hmod := Nat.div_add_mod 640 fd.width
  have hlt := Nat.mod_lt 640 (show fd.width > 0 by omega)
  by_cases hq : 640 / fd.width = 0
  · -- the frame is wider than 640 pixels: one column
    have hwide : ¬ fd.width ≤ 640 := by
      intro hle
      have := Nat.div_pos hle (show 0 < fd.width by omega)
      omega
    refine ⟨1, ?_, by simp [hq], le_refl _, fun hle => absurd hle hwide⟩
    simp only [presetFit640, hfd, hfloor, hq]
    rfl
  · have hqpos : 0 < 640 / fd.width := Nat.pos_of_ne_zero hq
    have hgt : JSNum.gtZero (JSNum.fin ((640 / fd.width : Nat) : Int)) = true := by
      simp only [JSNum.gtZero, decide_eq_true_eq]
      omega
    refine ⟨((640 / fd.width : Nat) : Int), ?_, by simp [hq], by omega, ?_⟩
    · simp only [presetFit640, hfd, hfloor, hgt, if_true]
      rfl
    · intro _
      have hmodZ : (fd.width : Int) * ((640 / fd.width : Nat) : Int)
          + ((640 % fd.width : Nat) : Int) = 640 := by exact_mod_cast hmod
      have hltZ : ((640 % fd.width : Nat) : Int) < fd.width := by exact_mod_cast hlt
      have hmod0 : (0 : Int) ≤ ((640 % fd.width : Nat) : Int) := Int.natCast_nonneg _
      have hwZ : (1 : Int) ≤ fd.width := by exact_mod_cast hw
      generalize ((640 / fd.width : Nat) : Int) = c at *
      generalize ((640 % fd.width : Nat) : Int) = m at *
      have h1 : c * fd.width ≤ 640 := by nlinarith
      have h2 : 640 < (c + 1) * fd.width := by nlinarith
      refine ⟨rfl, h1, h2, ?_, ?_⟩
      · intro c1 hc1
        by_contra hgt1
        have : c + 1 ≤ c1 := by omega
        nlinarith
      · intro hN
        have hc0 : 0 < c := by
          by_contra hle
          have : c ≤ 0 := by omega
          nlinarith
        obtain ⟨d, hd, hwd, hcd⟩ :=
          calculateDimensions_width { s with cols := JSNum.fin c, padding := JSNum.fin 0 }
            fd c 0 hfd hN hc0 (le_refl 0) rfl rfl (by nlinarith) (by nlinarith)
        have hwd1 : d.width = JSNum.fin (c * fd.width) := by
          rw [hwd]
          simp
        exact ⟨d, hd, hwd1, hcd, c * fd.width, hwd1, h1, by linarith⟩

/-- C10 at frames 100 pixels wide: six columns, a sheet 600 pixels wide. -/
theorem C10_fit640_largest_fitting_cols_witness :
    ∃ c : Int,
      presetFit640 (exampleState 4 100 50 8 2) =
        some { exampleState 4 100 50 8 2 with cols := JSNum.fin c, padding := JSNum.fin 0 } ∧
      c = (if 640 / 100 = 0 then 1 else ((640 / 100 : Nat) : Int)) ∧ 1 ≤ c := by
  obtain ⟨c, h1, h2, h3, _⟩ :=
    C10_fit640_largest_fitting_cols (exampleState 4 100 50 8 2) { width := 100, height := 50 }
      rfl (by decide)
  exact ⟨c, h1, h2, h3⟩

/-- The integer ceiling quotient of an exact multiple: `a · b` frames fill
exactly `b` rows of `a` columns. -/
theorem ceilQuot_mul_left (a b : Nat) (ha : 0 < a) :
    -((-((a * b : Nat) : Int)) / (a : Int)) = (b : Int) := by
  have ha0 : (a : Int) ≠ 0 := by exact_mod_cast (Nat.pos_iff_ne_zero.1 ha)
  have h : -((a * b : Nat) : Int) = (a : Int) * (-(b : Int)) := by
    push_cast
    ring
  rw [h, Int.mul_ediv_cancel_left _ ha0, neg_neg]

/-- Where the tip's suggestion does give 640 × 640: when the first-frame
width and height both divide 640.  With cols = ⌊640 / w⌋, padding 0 and
⌊640 / w⌋ · ⌊640 / h⌋ frames, `calculateDimensions` returns 640 × 640 in
640 / h rows. -/
theorem tip_exact_of_dvd (s : State) (fd : FrameDimensions)
    (hfd : s.frameDimensions = some fd)
    (hw : fd.width ∣ 640) (hh : fd.height ∣ 640)
    (hcols : s.cols = tipColumns fd) (hpad : s.padding = 0)
    (hN : JSNum.fin (s.files.length : Int) = tipFrames fd) :
    calculateDimensions s = some
      { width := JSNum.fin 640, height := JSNum.fin 640,
        rows := JSNum.fin ((640 / fd.height : Nat) : Int),
        cols := JSNum.fin ((640 / fd.width : Nat) : Int) } := by
  have hw0 : fd.width ≠ 0 := by
    intro h0
    rw [h0] at hw
    exact absurd (Nat.eq_zero_of_zero_dvd hw) (by decide)
  have hh0 : fd.height ≠ 0 := by
    intro h0
    rw [h0] at hh
    exact absurd (Nat.eq_zero_of_zero_dvd hh) (by decide)
  have hqw : 0 < 640 / fd.width :=
    Nat.div_pos (Nat.le_of_dvd (by decide) hw) (Nat.pos_of_ne_zero hw0)
  have hqh : 0 < 640 / fd.height :=
    Nat.div_pos (Nat.le_of_dvd (by decide) hh) (Nat.pos_of_ne_zero hh0)
  have hmw : 640 / fd.width * fd.width = 640 := Nat.div_mul_cancel hw
  have hmh : 640 / fd.height * fd.height = 640 := Nat.div_mul_cancel hh
  have hcols1 : s.cols = JSNum.fin ((640 / fd.width : Nat) : Int) := by
    rw [hcols]
    simp only [tipColumns, JSNum.floorDiv, if_neg hw0]
  have hqwle : 640 / fd.width ≤ 640 := Nat.div_le_self _ _
  have hqhle : 640 / fd.height ≤ 640 := Nat.div_le_self _ _
  have hlen : s.files.length = 640 / fd.width * (640 / fd.height) := by
    have hprod : ((640 / fd.width : Nat) : Int) * ((640 / fd.height : Nat) : Int) ≤ 2 ^ 53 := by
      have h1 : ((640 / fd.width : Nat) : Int) ≤ 640 := by exact_mod_cast hqwle
      have h2 : ((640 / fd.height : Nat) : Int) ≤ 640 := by exact_mod_cast hqhle
      have h3 : (0 : Int) ≤ ((640 / fd.width : Nat) : Int) := Int.natCast_nonneg _
      have h4 : (0 : Int) ≤ ((640 / fd.height : Nat) : Int) := Int.natCast_nonneg _
      nlinarith
    simp only [tipFrames, JSNum.floorDiv, if_neg hw0, if_neg hh0] at hN
    rw [JSNum.fin_mul_fin _ _ (Int.natCast_nonneg _) (Int.natCast_nonneg _) hprod,
      JSNum.fin.injEq] at hN
    exact_mod_cast hN
  have hc0 : (0 : Int) < ((640 / fd.width : Nat) : Int) := by exact_mod_cast hqw
  have hN0 : s.files.length ≠ 0 := by
    rw [hlen]
    exact Nat.mul_ne_zero (Nat.pos_iff_ne_zero.1 hqw) (Nat.pos_iff_ne_zero.1 hqh)
  have hrows : ((640 / fd.height : Nat) : Int)
      = -((-(s.files.length : Int)) / ((640 / fd.width : Nat) : Int)) := by
    rw [hlen]
    exact (ceilQuot_mul_left _ _ hqw).symm
  have hmwZ : ((640 / fd.width : Nat) : Int) * (fd.width : Int) = 640 := by exact_mod_cast hmw
  have hmhZ : ((640 / fd.height : Nat) : Int) * (fd.height : Int) = 640 := by exact_mod_cast hmh
  have hcb : ((640 / fd.width : Nat) : Int) ≤ 2 ^ 53 := by
    have : ((640 / fd.width : Nat) : Int) ≤ 640 := by exact_mod_cast hqwle
    omega
  have hrb : ((640 / fd.height : Nat) : Int) ≤ 2 ^ 53 := by
    have : ((640 / fd.height : Nat) : Int) ≤ 640 := by exact_mod_cast hqhle
    omega
  rw [calculateDimensions_int s fd _ 0 _ hfd hN0 hc0 (le_refl 0) hcols1 hpad hrows hcb hrb
    (by rw [hmwZ]; norm_num) (by rw [hmhZ]; norm_num)]
  simp only [Option.some.injEq, Dimensions.mk.injEq, JSNum.fin.injEq, and_true, mul_zero,
    add_zero]
  exact ⟨hmwZ, hmhZ⟩

/-- C11 fails on the code: with one 100 × 100 frame selected (cols 8,
padding 2) the tip is displayed and suggests 6 columns and 36 frames with
padding 0; with that configuration `calculateDimensions` returns 600 × 600 in
6 rows of 6 columns, not 640 × 640, and the tip stays on screen.  So it is
not true that every displayed tip with w < 256 leads to 640 × 640. -/
theorem C11_tip_suggestion_not_640 :
    rendersTip (exampleState 1 100 100 8 2) = true ∧
    tipColumns { width := 100, height := 100 } = JSNum.fin 6 ∧
    tipFrames { width := 100, height := 100 } = JSNum.fin 36 ∧
    calculateDimensions (exampleState 36 100 100 6 0) = some
      { width := JSNum.fin 600, height := JSNum.fin 600, rows := JSNum.fin 6,
        cols := JSNum.fin 6 } ∧
    rendersTip (exampleState 36 100 100 6 0) = true ∧
    ¬ (∀ (s t : State) (fd : FrameDimensions), s.frameDimensions = some fd →
        fd.width < 256 → rendersTip s = true →
        t.frameDimensions = some fd → t.cols = tipColumns fd → t.padding = 0 →
        JSNum.fin (t.files.length : Int) = tipFrames fd →
        ∃ d : Dimensions, calculateDimensions t = some d ∧
          d.width = JSNum.fin 640 ∧ d.height = JSNum.fin 640) := by
  refine ⟨by decide, by decide, by decide, by decide, by decide, ?_⟩
  intro h
  obtain ⟨d, hd, hwd, _⟩ :=
    h (exampleState 1 100 100 8 2) (exampleState 36 100 100 6 0)
      { width := 100, height := 100 } rfl (by decide) (by decide) rfl (by decide) rfl
      (by decide)
  have h600 : calculateDimensions (exampleState 36 100 100 6 0) = some
      { width := JSNum.fin 600, height := JSNum.fin 600, rows := JSNum.fin 6,
        cols := JSNum.fin 6 } := by decide
  rw [h600] at hd
  cases hd
  exact absurd hwd (by decide)

end SpriteSheets
